import Mathlib

/-!
Verification of the goca certificate-authority core (`ca.go`).

The Go orchestration file `ca.go` is shallowly embedded below.  The
filesystem store is an explicit value threaded through every operation;
the crypto collaborators (`key`, `cert`, `_storage` packages, which are
outside the orchestration file) are modelled from the specification's
interface contract (§6): deterministic stand-ins that record exactly the
data the orchestration logic inspects.  PEM/DER bytes are modelled by the
inductive `FileContent`; a present-but-malformed file is `FileContent.garbage`.
-/

set_option maxRecDepth 4096
set_option linter.unusedVariables false
set_option linter.dupNamespace false

/-- A path in the store, relative to the base directory (`$CAPATH`). -/
abbrev GPath := List String

/-- The error kinds of `ca.go` plus the collaborator errors visible at its
interface (a storage read miss, a codec parse failure, a copy failure). -/
inductive Err where
  | CAMissingInfo
  | CAGenerateExists
  | CALoadNotFound
  | CertLoadNotFound
  | CertRevoked
  | ParentCommonNameNotSpecified
  | storageNotFound (p : GPath)
  | parseError
  | copyError
deriving DecidableEq, Repr

/-- One `pkix.RevokedCertificate`: serial number and revocation time. -/
structure RevokedCert where
  serialNumber : Nat
  revocationTime : Nat
deriving DecidableEq, Repr

/-- The data of an `x509.CertificateRequest` that the orchestration inspects. -/
structure CSRData where
  subjectCN : String := ""
  publicKey : String := ""
deriving DecidableEq, Repr

/-- The data of an `x509.Certificate` that the orchestration inspects:
subject and issuer common names, serial, the private key that signed it,
and the validity in days. -/
structure CertData where
  subjectCN : String := ""
  issuerCN : String := ""
  serial : Nat := 0
  signedBy : String := ""
  validDays : Nat := 0
deriving DecidableEq, Repr

/-- Contents of one stored file (PEM bytes).  `garbage` is a present but
unparsable file. -/
inductive FileContent where
  | privKey (k : String)
  | pubKey (k : String)
  | csrData (d : CSRData)
  | certData (d : CertData)
  | crlData (l : List RevokedCert)
  | garbage (g : String)
deriving DecidableEq, Repr

/-- The PEM string of a file's bytes (Go's `string(bytes)`). -/
def pemOf : FileContent → String
  | .privKey k => "PEM PRIVATE KEY " ++ k
  | .pubKey k => "PEM PUBLIC KEY " ++ k
  | .csrData d => "PEM CSR " ++ d.subjectCN
  | .certData d => "PEM CERT " ++ d.subjectCN ++ " by " ++ d.issuerCN
  | .crlData l => "PEM CRL " ++ toString (l.map fun rc => rc.serialNumber)
  | .garbage g => g

/-- The filesystem-backed store: files, directories, and a set of paths on
which a copy operation fails (I/O fault injection, so that the partial
failure documented for `signCSR` is expressible). -/
structure Store where
  files : List (GPath × FileContent) := []
  dirs : List GPath := []
  badPaths : List GPath := []
deriving DecidableEq, Repr

/-- Look a file up; the most recent write wins. -/
def lookupFile : List (GPath × FileContent) → GPath → Option FileContent
  | [], _ => none
  | (q, v) :: rest, p => if q = p then some v else lookupFile rest p

/-- Write (or overwrite) a file. -/
def writeFile (s : Store) (p : GPath) (v : FileContent) : Store :=
  { s with files := (p, v) :: s.files }

/-- Modelled from the spec: `storage.MakeFolder` creates a directory
(idempotent, like `os.MkdirAll`). -/
def MakeFolder (s : Store) (d : GPath) : Store :=
  { s with dirs := d :: s.dirs }

/-- Modelled from the spec: `storage.CAStorage` — a name is known to the
store iff `<base>/<name>/ca` exists. -/
def CAStorage (s : Store) (cn : String) : Bool :=
  decide ([cn, "ca"] ∈ s.dirs)

/-- Modelled from the spec: `storage.LoadFile` reads a file's bytes,
failing when the file is absent. -/
def LoadFile (s : Store) (p : GPath) : Except Err FileContent :=
  match lookupFile s.files p with
  | some f => .ok f
  | none => .error (.storageNotFound p)

/-- Modelled from the spec: `storage.CopyFile` copies `src` to `dest`;
it fails when the source is absent or on an injected I/O fault. -/
def CopyFile (s : Store) (src dest : GPath) : Except Err Store :=
  if dest ∈ s.badPaths then .error .copyError
  else
    match lookupFile s.files src with
    | none => .error (.storageNotFound src)
    | some v => .ok (writeFile s dest v)

/-- Modelled from the spec: `List()` enumerates the CAs known to the store
(first-level subdirectories of the base directory). -/
def ListCAs (s : Store) : List String :=
  (s.dirs.filterMap List.head?).dedup

/-- `storage.CreationType`: CA material vs per-certificate material. -/
inductive CreationType where
  | ca
  | certificate
deriving DecidableEq, Repr

/-- `key.KeysData`: the generated key pair. -/
structure KeysData where
  Key : String
  PublicKey : String
deriving DecidableEq, Repr

/-- Deterministic stand-in for a generated private key. -/
def privKeyOf (caCN target : String) : String :=
  "rsa-priv-" ++ caCN ++ "-" ++ target

/-- Deterministic stand-in for a generated public key. -/
def pubKeyOf (caCN target : String) : String :=
  "rsa-pub-" ++ caCN ++ "-" ++ target

/-- Modelled from the spec: `key.CreateKeys` generates a key pair and
persists `key.pem` and `key.pub` under `<cn>/ca` (CA creation) or
`<caCN>/certs/<target>` (certificate creation), creating the directory. -/
def CreateKeys (s : Store) (caCN target : String) (ct : CreationType)
    (bitSize : Nat) : Store × KeysData :=
  let dir : GPath :=
    match ct with
    | .ca => [caCN, "ca"]
    | .certificate => [caCN, "certs", target]
  let ks : KeysData := { Key := privKeyOf caCN target, PublicKey := pubKeyOf caCN target }
  let s := MakeFolder s dir
  let s := writeFile s (dir ++ ["key.pem"]) (.privKey ks.Key)
  let s := writeFile s (dir ++ ["key.pub"]) (.pubKey ks.PublicKey)
  (s, ks)

/-- Modelled from the spec: `key.LoadPrivateKey` parses private-key bytes. -/
def LoadPrivateKey : FileContent → Except Err String
  | .privKey k => .ok k
  | _ => .error .parseError

/-- Modelled from the spec: `key.LoadPublicKey` parses public-key bytes. -/
def LoadPublicKey : FileContent → Except Err String
  | .pubKey k => .ok k
  | _ => .error .parseError

/-- Modelled from the spec: `cert.LoadCSR` parses CSR bytes. -/
def LoadCSR : FileContent → Except Err CSRData
  | .csrData d => .ok d
  | _ => .error .parseError

/-- Modelled from the spec: `cert.LoadCert` parses certificate bytes. -/
def LoadCert : FileContent → Except Err CertData
  | .certData d => .ok d
  | _ => .error .parseError

/-- Modelled from the spec: `cert.LoadCRL` parses CRL bytes. -/
def LoadCRL : FileContent → Except Err (List RevokedCert)
  | .crlData l => .ok l
  | _ => .error .parseError

/-- Deterministic stand-in for a generated certificate serial number. -/
def serialOf (cn : String) : Nat :=
  cn.length + 100

/-- The certificate produced when a CA signs a CSR: subject from the CSR,
issuer the signing CA, signed by the supplied private key. -/
def mkSignedCert (caCN : String) (csr : CSRData) (signerKey : String)
    (valid : Nat) : CertData :=
  { subjectCN := csr.subjectCN, issuerCN := caCN, serial := serialOf csr.subjectCN,
    signedBy := signerKey, validDays := valid }

/-- The self-signed root certificate: subject and issuer both the CA. -/
def mkRootCert (cn : String) (signerKey : String) (valid : Nat) : CertData :=
  { subjectCN := cn, issuerCN := cn, serial := serialOf cn,
    signedBy := signerKey, validDays := valid }

/-- Modelled from the spec: `cert.CreateRootCert` builds the self-signed
root certificate and persists it as `<cn>/ca/<cn>.crt`. -/
def CreateRootCert (s : Store) (cn : String) (valid : Nat)
    (privKey pubKey : String) : Store × CertData :=
  let cd := mkRootCert cn privKey valid
  (writeFile s [cn, "ca", cn ++ ".crt"] (.certData cd), cd)

/-- Modelled from the spec: `cert.CreateCACert` builds an intermediate CA
certificate, subject `cn`, issuer the parent certificate's subject, signed
by the parent's key, persisted as `<cn>/ca/<cn>.crt`. -/
def CreateCACert (s : Store) (cn : String) (valid : Nat)
    (privKey parentKey : String) (parentCert : CertData)
    (pubKey : String) : Store × CertData :=
  let cd : CertData :=
    { subjectCN := cn, issuerCN := parentCert.subjectCN, serial := serialOf cn,
      signedBy := parentKey, validDays := valid }
  (writeFile s [cn, "ca", cn ++ ".crt"] (.certData cd), cd)

/-- Modelled from the spec: `cert.LoadParentCACertificate` loads the parent
CA's certificate and private key from `<parent>/ca/`; it fails with the
load error (`NotFound`) when the parent CA does not exist, and with a parse
or read error when its artifacts are missing or malformed. -/
def LoadParentCACertificate (s : Store) (cn : String) :
    Except Err (CertData × String) :=
  if CAStorage s cn then
    match lookupFile s.files [cn, "ca", cn ++ ".crt"],
          lookupFile s.files [cn, "ca", "key.pem"] with
    | some (.certData cd), some (.privKey k) => .ok (cd, k)
    | some _, some _ => .error .parseError
    | none, _ => .error (.storageNotFound [cn, "ca", cn ++ ".crt"])
    | _, none => .error (.storageNotFound [cn, "ca", "key.pem"])
  else .error .CALoadNotFound

/-- Modelled from the spec: `cert.CreateCSR` builds a CSR for `cn` from the
identity's subject fields and persists it as `<caCN>/certs/<cn>/<cn>.csr`. -/
def CreateCSR (s : Store) (caCN cn : String) (privKey : String) :
    Store × CSRData :=
  let d : CSRData := { subjectCN := cn, publicKey := pubKeyOf caCN cn }
  (writeFile s [caCN, "certs", cn, cn ++ ".csr"] (.csrData d), d)

/-- Modelled from the spec: `cert.CASignCSR` signs a CSR with the CA's key
and certificate and persists the produced certificate bytes under
`<caCN>/certs/<subject>/<subject>.crt`. -/
def CASignCSR (s : Store) (caCN : String) (csr : CSRData)
    (caCert : Option CertData) (signerKey : String) (valid : Nat) :
    Store × CertData :=
  let cd := mkSignedCert caCN csr signerKey valid
  (writeFile s [caCN, "certs", csr.subjectCN, csr.subjectCN ++ ".crt"] (.certData cd), cd)

/-- Modelled from the spec: `cert.RevokeCertificate` builds the CRL over the
whole supplied revoked-entry list, signs it with the CA's key, persists it
as `<cn>/ca/<cn>.crl` and returns its bytes. -/
def RevokeCertificateCodec (s : Store) (cn : String)
    (entries : List RevokedCert) (caCert : Option CertData)
    (signerKey : String) : Store × List RevokedCert × Option Err :=
  (writeFile s [cn, "ca", cn ++ ".crl"] (.crlData entries), entries, none)

/-- Modelled from the spec: `x509.ParseCRL` on codec-produced CRL bytes. -/
def ParseCRL (l : List RevokedCert) : Except Err (List RevokedCert) :=
  .ok l

/-- The `goca.Identity` input structure. -/
structure Identity where
  Organization : String := ""
  OrganizationalUnit : String := ""
  Country : String := ""
  Locality : String := ""
  Province : String := ""
  EmailAddresses : String := ""
  DNSNames : List String := []
  Intermediate : Bool := false
  KeyBitSize : Nat := 0
  Valid : Nat := 0
deriving DecidableEq, Repr

/-- The `goca.CAData` structure.  Go value-typed keys have zero value `""`;
Go pointer fields are `Option`. -/
structure CAData where
  CRL : String := ""
  Certificate : String := ""
  CSR : String := ""
  PrivateKey : String := ""
  PublicKey : String := ""
  privateKey : String := ""
  certificate : Option CertData := none
  publicKey : String := ""
  csr : Option CSRData := none
  crl : Option (List RevokedCert) := none
  IsIntermediate : Bool := false
deriving DecidableEq, Repr

/-- Modelled from the spec: the `goca.CA` receiver — a common name plus its
`CAData` (the struct itself is declared outside the orchestration file). -/
structure CA where
  CommonName : String
  Data : CAData := {}
deriving DecidableEq, Repr

/-- The `goca.Certificate` structure. -/
structure Certificate where
  commonName : String := ""
  Certificate : String := ""
  CSR : String := ""
  PrivateKey : String := ""
  PublicKey : String := ""
  CACertificate : String := ""
  privateKey : String := ""
  publicKey : String := ""
  csr : CSRData := {}
  certificate : Option CertData := none
  caCertificate : Option CertData := none
deriving DecidableEq, Repr

/-- Modelled from the spec: the CA's `GoCRL` accessor returns the in-memory
parsed CRL (`nil` when absent). -/
def GoCRL (c : CA) : Option (List RevokedCert) :=
  c.Data.crl

/-- `(c *CA) create(commonName, parentCommonName, id)` from `ca.go`.
Returns the store after the call, the receiver after the call, and the Go
error (`none` for a nil error).  Every step is transcribed in source
order, including the source's `return nil` on a parent-CA load failure and
the final `c.Data.CRL` write that is clobbered by `c.Data = caData`. -/
def create (c : CA) (s : Store) (commonName parentCommonName : String)
    (id : Identity) : Store × CA × Option Err :=
  let caData : CAData := {}
  if CAStorage s commonName then (s, c, some .CAGenerateExists) else
  let caDir : GPath := [commonName, "ca"]
  let caCertsDir : GPath := [commonName, "certs"]
  if id.Organization = "" ∨ id.OrganizationalUnit = "" ∨ id.Country = "" ∨
      id.Locality = "" ∨ id.Province = "" then (s, c, some .CAMissingInfo) else
  let s := MakeFolder s caDir
  let s := MakeFolder s caCertsDir
  let ck := CreateKeys s commonName commonName .ca id.KeyBitSize
  let s := ck.1
  let caKeys := ck.2
  let keyString : String :=
    match LoadFile s (caDir ++ ["key.pem"]) with
    | .ok f => pemOf f
    | .error _ => ""
  -- the source reads the public key back from the *certs* directory
  let publicKeyString : String :=
    match LoadFile s (caCertsDir ++ ["key.pub"]) with
    | .ok f => pemOf f
    | .error _ => ""
  let privKey := caKeys.Key
  let pubKey := caKeys.PublicKey
  let caData := { caData with
    privateKey := privKey, PrivateKey := keyString,
    publicKey := pubKey, PublicKey := publicKeyString }
  -- root / intermediate branch; `Sum.inl` models the source's early returns
  let step : (Store × CA × Option Err) ⊕ (Store × CertData × Bool) :=
    if !id.Intermediate then
      let r := CreateRootCert s commonName id.Valid privKey pubKey
      .inr (r.1, r.2, false)
    else if parentCommonName = "" then
      .inl (s, c, some .ParentCommonNameNotSpecified)
    else
      match LoadParentCACertificate s parentCommonName with
      | .error _ => .inl (s, c, none)   -- the source returns nil here
      | .ok pc =>
        let r := CreateCACert s commonName id.Valid privKey pc.2 pc.1 pubKey
        .inr (r.1, r.2, true)
  match step with
  | .inl done => done
  | .inr sb =>
    let s := sb.1
    let certBytes := sb.2.1
    let caData := { caData with IsIntermediate := sb.2.2 }
    -- x509.ParseCertificate(certBytes); the error is discarded
    let certificate : Option CertData := some certBytes
    let certString : String :=
      match LoadFile s (caDir ++ [commonName ++ ".crt"]) with
      | .ok f => pemOf f
      | .error _ => ""
    let caData := { caData with certificate := certificate, Certificate := certString }
    let rcr := RevokeCertificateCodec s c.CommonName [] certificate privKey
    let s := rcr.1
    -- the source parses/stores the initial CRL only when the codec ERRORED,
    -- and keeps the parse result only when the parse also errored
    let caData :=
      match rcr.2.2 with
      | some _ =>
        match ParseCRL rcr.2.1 with
        | .error _ => { caData with crl := none }
        | .ok _ => caData
      | none => caData
    let crlString : String :=
      match LoadFile s (caDir ++ [commonName ++ ".crl"]) with
      | .ok f => pemOf f
      | .error _ => ""
    -- source: c.Data.CRL = string(crlString); c.Data = caData
    let c := { c with Data := { c.Data with CRL := crlString } }
    let c := { c with Data := caData }
    (s, c, none)

/-- `(c *CA) loadCA(commonName)` from `ca.go`: private and public key are
required (read or parse failure is fatal), CSR / certificate / CRL are
optional (absence tolerated, parse failure fatal); the CRL path uses the
receiver's common name. -/
def loadCA (c : CA) (s : Store) (commonName : String) : CA × Option Err :=
  let caData : CAData := {}
  let caDir : GPath := [commonName, "ca"]
  if !CAStorage s commonName then (c, some .CALoadNotFound) else
  match LoadFile s (caDir ++ ["key.pem"]) with
  | .error loadErr => (c, some loadErr)
  | .ok keyString =>
    match LoadPrivateKey keyString with
    | .error e => (c, some e)
    | .ok privateKey =>
      let caData := { caData with PrivateKey := pemOf keyString, privateKey := privateKey }
      match LoadFile s (caDir ++ ["key.pub"]) with
      | .error loadErr => (c, some loadErr)
      | .ok pubString =>
        match LoadPublicKey pubString with
        | .error e => (c, some e)
        | .ok publicKey =>
          let caData := { caData with PublicKey := pemOf pubString, publicKey := publicKey }
          let csrStep : Except Err CAData :=
            match LoadFile s (caDir ++ [commonName ++ ".csr"]) with
            | .error _ => .ok caData
            | .ok csrString =>
              match LoadCSR csrString with
              | .error e => .error e
              | .ok v => .ok { caData with CSR := pemOf csrString, csr := some v }
          match csrStep with
          | .error e => (c, some e)
          | .ok caData =>
            let certStep : Except Err CAData :=
              match LoadFile s (caDir ++ [commonName ++ ".crt"]) with
              | .error _ => .ok caData
              | .ok certString =>
                match LoadCert certString with
                | .error e => .error e
                | .ok v => .ok { caData with Certificate := pemOf certString, certificate := some v }
            match certStep with
            | .error e => (c, some e)
            | .ok caData =>
              let crlStep : Except Err CAData :=
                match LoadFile s (caDir ++ [c.CommonName ++ ".crl"]) with
                | .error _ => .ok caData
                | .ok crlString =>
                  match LoadCRL crlString with
                  | .error e => .error e
                  | .ok v => .ok { caData with CRL := pemOf crlString, crl := some v }
              match crlStep with
              | .error e => (c, some e)
              | .ok caData => ({ c with Data := caData }, none)

/-- `(c *CA) signCSR(csr, valid)` from `ca.go`: sign the caller-supplied
CSR, then — when the CSR's subject common name is a CA known to the store —
copy the produced certificate bytes into that CA's own `ca` directory; a
copy failure is returned as the call's error while the returned
`Certificate` keeps the already-signed certificate. -/
def signCSR (c : CA) (s : Store) (csr : CSRData) (valid : Nat) :
    Store × Certificate × Option Err :=
  let certificate : Certificate :=
    { commonName := csr.subjectCN, csr := csr,
      caCertificate := c.Data.certificate, CACertificate := c.Data.Certificate }
  -- optional pre-existing CSR file (note the source's "cert" path segment)
  let pre : Except Err Certificate :=
    match LoadFile s [c.CommonName, "cert", certificate.commonName ++ ".csr"] with
    | .error _ => .ok certificate
    | .ok csrString =>
      match LoadCSR csrString with
      | .error e => .error e
      | .ok _ => .ok { certificate with CSR := pemOf csrString }
  match pre with
  | .error e => (s, certificate, some e)
  | .ok certificate =>
    let r := CASignCSR s c.CommonName csr c.Data.certificate c.Data.privateKey valid
    let s := r.1
    let certBytes := r.2
    let certificate := { certificate with Certificate := pemOf (.certData certBytes) }
    -- x509.ParseCertificate on codec output always succeeds in the model
    let certificate := { certificate with certificate := some certBytes }
    if certificate.commonName ∈ ListCAs s then
      let srcPath : GPath :=
        [c.CommonName, "certs", certificate.commonName, certificate.commonName ++ ".crt"]
      let destPath : GPath :=
        [certificate.commonName, "ca", certificate.commonName ++ ".crt"]
      match CopyFile s srcPath destPath with
      | .error e => (s, certificate, some e)
      | .ok s2 => (s2, certificate, none)
    else (s, certificate, none)

/-- `(c *CA) issueCertificate(commonName, id)` from `ca.go`: generate a
fresh key pair and CSR for `commonName`, sign the CSR with the calling
CA's key and certificate, and return the populated `Certificate` carrying
a copy of the issuing CA's certificate. -/
def issueCertificate (c : CA) (s : Store) (commonName : String)
    (id : Identity) : Store × Certificate × Option Err :=
  let caCertsDir : GPath := [c.CommonName, "certs"]
  let certificate : Certificate :=
    { CACertificate := c.Data.Certificate, caCertificate := c.Data.certificate }
  let r0 := CreateKeys s c.CommonName commonName .certificate id.KeyBitSize
  let s := r0.1
  let certKeys := r0.2
  let keyString : String :=
    match LoadFile s (caCertsDir ++ [commonName, "key.pem"]) with
    | .ok f => pemOf f
    | .error _ => ""
  let publicKeyString : String :=
    match LoadFile s (caCertsDir ++ [commonName, "key.pub"]) with
    | .ok f => pemOf f
    | .error _ => ""
  let certificate := { certificate with
    privateKey := certKeys.Key, PrivateKey := keyString,
    publicKey := certKeys.PublicKey, PublicKey := publicKeyString }
  let r1 := CreateCSR s c.CommonName commonName certKeys.Key
  let s := r1.1
  let csr := r1.2   -- x509.ParseCertificateRequest(csrBytes); error discarded
  let csrString : String :=
    match LoadFile s (caCertsDir ++ [commonName, commonName ++ ".csr"]) with
    | .ok f => pemOf f
    | .error _ => ""
  let certificate := { certificate with csr := csr, CSR := csrString }
  let r2 := CASignCSR s c.CommonName csr c.Data.certificate c.Data.privateKey id.Valid
  let s := r2.1
  let certBytes := r2.2
  let certificate := { certificate with Certificate := pemOf (.certData certBytes) }
  let certificate := { certificate with certificate := some certBytes }
  (s, certificate, none)

/-- `(c *CA) loadCertificate(commonName)` from `ca.go`.  The result `none`
models the run-time panic: for the key, public key and CSR files the
source discards the parse error and dereferences the returned nil pointer;
only a present-but-unparsable certificate file is returned as an error. -/
def loadCertificate (c : CA) (s : Store) (commonName : String) :
    Option (Certificate × Option Err) :=
  let caCertsDir : GPath := [c.CommonName, "certs", commonName]
  if caCertsDir ∉ s.dirs then some ({}, some .CertLoadNotFound) else
  let certificate : Certificate :=
    { CACertificate := c.Data.Certificate, caCertificate := c.Data.certificate }
  let keyStep : Option Certificate :=
    match LoadFile s (caCertsDir ++ ["key.pem"]) with
    | .error _ => some certificate
    | .ok f =>
      match LoadPrivateKey f with
      | .error _ => none   -- *privateKey on a nil pointer: panic
      | .ok k => some { certificate with PrivateKey := pemOf f, privateKey := k }
  match keyStep with
  | none => none
  | some certificate =>
    let pubStep : Option Certificate :=
      match LoadFile s (caCertsDir ++ ["key.pub"]) with
      | .error _ => some certificate
      | .ok f =>
        match LoadPublicKey f with
        | .error _ => none   -- *publicKey on a nil pointer: panic
        | .ok k => some { certificate with PublicKey := pemOf f, publicKey := k }
    match pubStep with
    | none => none
    | some certificate =>
      let csrStep : Option Certificate :=
        match LoadFile s (caCertsDir ++ [commonName ++ ".csr"]) with
        | .error _ => some certificate
        | .ok f =>
          match LoadCSR f with
          | .error _ => none   -- *csr on a nil pointer: panic
          | .ok d => some { certificate with CSR := pemOf f, csr := d }
      match csrStep with
      | none => none
      | some certificate =>
        match LoadFile s (caCertsDir ++ [commonName ++ ".crt"]) with
        | .error _ => some (certificate, none)
        | .ok f =>
          match LoadCert f with
          | .error e => some (certificate, some e)
          | .ok d =>
            some ({ certificate with Certificate := pemOf f, certificate := some d }, none)

/-- `(c *CA) revokeCertificate(certificate)` from `ca.go` with the wall
clock passed explicitly: fail with `AlreadyRevoked` when the serial is
already in the in-memory CRL, otherwise append one entry, rebuild the CRL
over the whole list via the codec, parse it back into memory and reload
the persisted CRL string. -/
def revokeCertificate (c : CA) (s : Store) (certificate : CertData)
    (now : Nat) : Store × CA × Option Err :=
  let caDir : GPath := [c.CommonName, "ca"]
  let currentCRL := GoCRL c
  let alreadyRevoked : Bool :=
    match currentCRL with
    | some crl => crl.any fun e => e.serialNumber == certificate.serial
    | none => false
  if alreadyRevoked then (s, c, some .CertRevoked) else
  let revokedCerts : List RevokedCert :=
    match currentCRL with
    | some crl => crl
    | none => []
  let newCertRevoke : RevokedCert :=
    { serialNumber := certificate.serial, revocationTime := now }
  let revokedCerts := revokedCerts ++ [newCertRevoke]
  let rcr := RevokeCertificateCodec s c.CommonName revokedCerts c.Data.certificate c.Data.privateKey
  let s := rcr.1
  match rcr.2.2 with
  | some e => (s, c, some e)
  | none =>
    match ParseCRL rcr.2.1 with
    | .error e => (s, c, some e)
    | .ok crl =>
      let c := { c with Data := { c.Data with crl := some crl } }
      let crlString : String :=
        match LoadFile s (caDir ++ [c.CommonName ++ ".crl"]) with
        | .ok f => pemOf f
        | .error _ => ""
      let c := { c with Data := { c.Data with CRL := crlString } }
      (s, c, none)

/-- A fully populated identity used by the concrete instances below. -/
def idFull : Identity :=
  { Organization := "Acme", OrganizationalUnit := "Sec", Country := "NL",
    Locality := "X", Province := "Y", Valid := 100 }

/-- The same identity with the intermediate flag set. -/
def idInter : Identity :=
  { idFull with Intermediate := true }

/-- Claim C1: for an intermediate identity, `create` with an empty
`parentCommonName` does return `ParentNotSpecified`; but `create` with a
non-empty parent that does not resolve to a loadable CA returns a nil
error (the source's `return nil` at the parent-load failure) instead of
propagating the parent's `NotFound`, leaving the receiver's data
unpopulated.  The last conjunct shows the parent is indeed unknown to the
store, so `LoadParentCACertificate` failed on this run. -/
theorem create_intermediate_parent_load_error_swallowed :
    (create { CommonName := "inter.test" } {} "inter.test" "" idInter).2.2
      = some Err.ParentCommonNameNotSpecified ∧
    (create { CommonName := "inter.test" } {} "inter.test" "missing.root" idInter).2.2
      = none ∧
    (create { CommonName := "inter.test" } {} "inter.test" "missing.root" idInter).2.1
      = { CommonName := "inter.test" } ∧
    CAStorage ({} : Store) "missing.root" = false :=
  ⟨rfl, rfl, rfl, rfl⟩

/-- Claim C6: a successful root `create` does NOT return a fully populated
CA.  On a concrete successful run the private key and certificate PEM
strings are set, but the public-key PEM string is empty (the source reads
`key.pub` back from the `certs` directory while the key collaborator wrote
it under `ca`), the in-memory CRL is nil (it is only stored under a
doubly inverted error condition) and the CRL string is empty (the
`c.Data.CRL` assignment is clobbered by `c.Data = caData`) — even though
the `key.pub` and CRL files do exist on disk after the call. -/
theorem create_returns_unpopulated_fields :
    (create { CommonName := "root.test" } {} "root.test" "" idFull).2.2 = none ∧
    (create { CommonName := "root.test" } {} "root.test" "" idFull).2.1.Data.PrivateKey
      = pemOf (.privKey (privKeyOf "root.test" "root.test")) ∧
    (create { CommonName := "root.test" } {} "root.test" "" idFull).2.1.Data.Certificate
      = pemOf (.certData (mkRootCert "root.test" (privKeyOf "root.test" "root.test") 100)) ∧
    (create { CommonName := "root.test" } {} "root.test" "" idFull).2.1.Data.PublicKey = "" ∧
    (create { CommonName := "root.test" } {} "root.test" "" idFull).2.1.Data.CRL = "" ∧
    (create { CommonName := "root.test" } {} "root.test" "" idFull).2.1.Data.crl = none ∧
    lookupFile (create { CommonName := "root.test" } {} "root.test" "" idFull).1.files
      ["root.test", "ca", "key.pub"] = some (.pubKey (pubKeyOf "root.test" "root.test")) ∧
    lookupFile (create { CommonName := "root.test" } {} "root.test" "" idFull).1.files
      ["root.test", "ca", "root.test.crl"] = some (.crlData []) :=
  ⟨rfl, rfl, rfl, rfl, rfl, rfl, by decide, by decide⟩

/-- Claim C2: for every CA state and every certificate whose serial number
is already in the in-memory CRL's revoked-entry list, `revokeCertificate`
returns `AlreadyRevoked` and leaves both the store and the CA (in-memory
CRL and CRL string included) completely unchanged. -/
theorem revokeCertificate_already_revoked_no_mutation (c : CA) (s : Store)
    (cert : CertData) (now : Nat) (crl : List RevokedCert)
    (hcrl : c.Data.crl = some crl)
    (hmem : (crl.any fun e => e.serialNumber == cert.serial) = true) :
    revokeCertificate c s cert now = (s, c, some Err.CertRevoked) := by
  simp [revokeCertificate, GoCRL, hcrl, hmem]

/-- Witness for C2 at a concrete already-revoked serial. -/
theorem revokeCertificate_already_revoked_no_mutation_witness :
    revokeCertificate
      { CommonName := "w2", Data := { crl := some [{ serialNumber := 5, revocationTime := 10 }] } }
      {} { serial := 5 } 99
    = ({}, { CommonName := "w2",
             Data := { crl := some [{ serialNumber := 5, revocationTime := 10 }] } },
       some Err.CertRevoked) :=
  revokeCertificate_already_revoked_no_mutation _ _ _ _ _ rfl (by decide)

/-- Claim C3: a successful `revokeCertificate` (serial not yet revoked)
appends exactly one entry — the certificate's serial paired with the
current time — to the full accumulated revoked-entry list, rebuilds the
CRL over that whole list (in memory, as the CRL string, and on disk), and
preserves every prior entry while growing the count by exactly one. -/
theorem revokeCertificate_appends_single_entry (c : CA) (s : Store)
    (cert : CertData) (now : Nat)
    (hmem : (((GoCRL c).getD []).any fun e => e.serialNumber == cert.serial) = false) :
    (revokeCertificate c s cert now).2.2 = none ∧
    (revokeCertificate c s cert now).2.1.Data.crl
      = some (((GoCRL c).getD []) ++ [{ serialNumber := cert.serial, revocationTime := now }]) ∧
    (revokeCertificate c s cert now).2.1.Data.CRL
      = pemOf (.crlData (((GoCRL c).getD [])
          ++ [{ serialNumber := cert.serial, revocationTime := now }])) ∧
    (revokeCertificate c s cert now).1
      = writeFile s [c.CommonName, "ca", c.CommonName ++ ".crl"]
          (.crlData (((GoCRL c).getD [])
            ++ [{ serialNumber := cert.serial, revocationTime := now }])) ∧
    (∀ e ∈ (GoCRL c).getD [],
      e ∈ ((GoCRL c).getD []) ++ [{ serialNumber := cert.serial, revocationTime := now }]) ∧
    (((GoCRL c).getD [])
        ++ [({ serialNumber := cert.serial, revocationTime := now } : RevokedCert)]).length
      = ((GoCRL c).getD []).length + 1 := by
  cases hc : c.Data.crl with
  | none =>
    simp [revokeCertificate, GoCRL, hc, RevokeCertificateCodec, ParseCRL,
      LoadFile, writeFile, lookupFile]
  | some l =>
    have hany : (l.any fun e => e.serialNumber == cert.serial) = false := by
      simpa [GoCRL, hc] using hmem
    simp [revokeCertificate, GoCRL, hc, hany, RevokeCertificateCodec, ParseCRL,
      LoadFile, writeFile, lookupFile]
    exact fun e he => Or.inl he

/-- Witness for C3 at a concrete fresh serial over a one-entry CRL. -/
theorem revokeCertificate_appends_single_entry_witness :
    (revokeCertificate
      { CommonName := "w3", Data := { crl := some [{ serialNumber := 5, revocationTime := 10 }] } }
      {} { serial := 6 } 77).2.1.Data.crl
    = some [{ serialNumber := 5, revocationTime := 10 },
            { serialNumber := 6, revocationTime := 77 }] :=
  (revokeCertificate_appends_single_entry
    { CommonName := "w3", Data := { crl := some [{ serialNumber := 5, revocationTime := 10 }] } }
    {} { serial := 6 } 77 (by decide)).2.1

/-- Claim C5: when the common name is not yet in the store and any of the
five required identity fields is empty, `create` returns `MissingInfo`
with the store and the receiver completely unchanged — the check fires
before any directory is created or file written. -/
theorem create_missing_info_no_persist (c : CA) (s : Store)
    (cn parent : String) (id : Identity)
    (hex : CAStorage s cn = false)
    (hmiss : id.Organization = "" ∨ id.OrganizationalUnit = "" ∨ id.Country = "" ∨
      id.Locality = "" ∨ id.Province = "") :
    create c s cn parent id = (s, c, some Err.CAMissingInfo) := by
  rcases hmiss with h | h | h | h | h <;> simp [create, hex, h]

/-- Witness for C5 at a concrete identity missing its organization. -/
theorem create_missing_info_no_persist_witness :
    create { CommonName := "w5" } {} "w5" "" { idFull with Organization := "" }
      = ({}, { CommonName := "w5" }, some Err.CAMissingInfo) :=
  create_missing_info_no_persist { CommonName := "w5" } {} "w5" ""
    { idFull with Organization := "" } (by decide) (Or.inl rfl)

/-- After a `create` call that returned a nil error, the created common
name is known to the store: every non-erroring path of `create` has
already made the `<cn>/ca` folder. -/
theorem create_none_knows_name (c : CA) (s : Store) (cn parent : String)
    (id : Identity) (s2 : Store) (c2 : CA)
    (h : create c s cn parent id = (s2, c2, none)) :
    CAStorage s2 cn = true := by
  simp only [create] at h
  by_cases h1 : CAStorage s cn = true
  · simp [h1] at h
  by_cases hmiss : id.Organization = "" ∨ id.OrganizationalUnit = "" ∨ id.Country = "" ∨
      id.Locality = "" ∨ id.Province = ""
  · simp [h1, hmiss] at h
  by_cases hint : id.Intermediate = true
  case pos =>
    by_cases hpar : parent = ""
    · simp [h1, hmiss, hint, hpar] at h
    cases hp : LoadParentCACertificate
        ((CreateKeys (MakeFolder (MakeFolder s [cn, "ca"]) [cn, "certs"]) cn cn
          CreationType.ca id.KeyBitSize).1) parent with
    | error e =>
      rw [hp] at h
      simp [h1, hmiss, hint, hpar, CreateKeys, MakeFolder, writeFile, CreateRootCert,
        CreateCACert, RevokeCertificateCodec, ParseCRL, Prod.ext_iff] at h
      obtain ⟨hs, -⟩ := h
      subst hs
      simp [CAStorage, CreateKeys, MakeFolder, writeFile]
    | ok pc =>
      rw [hp] at h
      simp [h1, hmiss, hint, hpar, CreateKeys, MakeFolder, writeFile, CreateRootCert,
        CreateCACert, RevokeCertificateCodec, ParseCRL, Prod.ext_iff] at h
      obtain ⟨hs, -⟩ := h
      subst hs
      simp [CAStorage, CreateKeys, MakeFolder, writeFile, CreateCACert, RevokeCertificateCodec]
  case neg =>
    simp [h1, hmiss, hint, CreateKeys, MakeFolder, writeFile, CreateRootCert,
      CreateCACert, RevokeCertificateCodec, ParseCRL, Prod.ext_iff] at h
    obtain ⟨hs, -⟩ := h
    subst hs
    simp [CAStorage, CreateKeys, MakeFolder, writeFile, CreateRootCert, RevokeCertificateCodec]

/-- Claim C4: calling `create(name, ...)` immediately after a successful
`create(name, ...)` fails with `AlreadyExists`, with the store and the
receiver untouched — the existence check precedes all other work. -/
theorem create_twice_fails_already_exists (c : CA) (s : Store)
    (cn parent : String) (id : Identity) (s2 : Store) (c2 : CA)
    (h : create c s cn parent id = (s2, c2, none))
    (c3 : CA) (parent3 : String) (id3 : Identity) :
    create c3 s2 cn parent3 id3 = (s2, c3, some Err.CAGenerateExists) := by
  have hknow := create_none_knows_name c s cn parent id s2 c2 h
  simp [create, hknow]

/-- Witness for C4: a concrete successful create followed by a second
create of the same common name. -/
theorem create_twice_fails_already_exists_witness :
    create { CommonName := "w4" } (create { CommonName := "w4" } {} "w4" "" idFull).1
      "w4" "" idFull
    = ((create { CommonName := "w4" } {} "w4" "" idFull).1, { CommonName := "w4" },
       some Err.CAGenerateExists) :=
  create_twice_fails_already_exists { CommonName := "w4" } {} "w4" "" idFull
    (create { CommonName := "w4" } {} "w4" "" idFull).1
    (create { CommonName := "w4" } {} "w4" "" idFull).2.1
    rfl { CommonName := "w4" } "" idFull

/-- Claim C9: for every CA, common name and identity, a successful
`issueCertificate` returns a `Certificate` whose `CACertificate` field
equals the issuing CA's own certificate PEM string, and whose own
certificate is the one newly produced by signing the generated CSR with
the CA's private key (issuer the CA, `signedBy` the CA's private key),
with its PEM string in the `Certificate` field; the call's error is nil. -/
theorem issueCertificate_carries_ca_certificate (c : CA) (s : Store)
    (cn : String) (id : Identity) :
    (issueCertificate c s cn id).2.1.CACertificate = c.Data.Certificate ∧
    (issueCertificate c s cn id).2.1.certificate
      = some (mkSignedCert c.CommonName
          { subjectCN := cn, publicKey := pubKeyOf c.CommonName cn }
          c.Data.privateKey id.Valid) ∧
    (mkSignedCert c.CommonName
        { subjectCN := cn, publicKey := pubKeyOf c.CommonName cn }
        c.Data.privateKey id.Valid).signedBy = c.Data.privateKey ∧
    (mkSignedCert c.CommonName
        { subjectCN := cn, publicKey := pubKeyOf c.CommonName cn }
        c.Data.privateKey id.Valid).issuerCN = c.CommonName ∧
    (issueCertificate c s cn id).2.1.Certificate
      = pemOf (.certData (mkSignedCert c.CommonName
          { subjectCN := cn, publicKey := pubKeyOf c.CommonName cn }
          c.Data.privateKey id.Valid)) ∧
    (issueCertificate c s cn id).2.2 = none :=
  ⟨rfl, rfl, rfl, rfl, rfl, rfl⟩

/-- Claim C7: `loadCA` fails with `NotFound` when the store has no record
for the common name; the private key and public key are required (a read
failure or a parse failure on either is fatal to the load); the CSR,
certificate and CRL are optional (an absent file is tolerated and leaves
the corresponding field empty, a parse failure on a present file is
fatal).  Stated as one conjunction: (1) not-found; (2) key read fatal;
(3) key parse fatal; (4) public-key read fatal; (5) public-key parse
fatal; (6) CSR parse fatal; (7) certificate parse fatal; (8) CRL parse
fatal; (9) all three optional artifacts absent is a successful load with
the optional fields left empty. -/
theorem loadCA_required_and_optional_artifacts :
    (∀ (c : CA) (s : Store) (cn : String), CAStorage s cn = false →
      loadCA c s cn = (c, some Err.CALoadNotFound)) ∧
    (∀ (c : CA) (s : Store) (cn : String), CAStorage s cn = true →
      lookupFile s.files [cn, "ca", "key.pem"] = none →
      loadCA c s cn = (c, some (Err.storageNotFound [cn, "ca", "key.pem"]))) ∧
    (∀ (c : CA) (s : Store) (cn g : String), CAStorage s cn = true →
      lookupFile s.files [cn, "ca", "key.pem"] = some (.garbage g) →
      loadCA c s cn = (c, some Err.parseError)) ∧
    (∀ (c : CA) (s : Store) (cn k : String), CAStorage s cn = true →
      lookupFile s.files [cn, "ca", "key.pem"] = some (.privKey k) →
      lookupFile s.files [cn, "ca", "key.pub"] = none →
      loadCA c s cn = (c, some (Err.storageNotFound [cn, "ca", "key.pub"]))) ∧
    (∀ (c : CA) (s : Store) (cn k g : String), CAStorage s cn = true →
      lookupFile s.files [cn, "ca", "key.pem"] = some (.privKey k) →
      lookupFile s.files [cn, "ca", "key.pub"] = some (.garbage g) →
      loadCA c s cn = (c, some Err.parseError)) ∧
    (∀ (c : CA) (s : Store) (cn k p g : String), CAStorage s cn = true →
      lookupFile s.files [cn, "ca", "key.pem"] = some (.privKey k) →
      lookupFile s.files [cn, "ca", "key.pub"] = some (.pubKey p) →
      lookupFile s.files [cn, "ca", cn ++ ".csr"] = some (.garbage g) →
      loadCA c s cn = (c, some Err.parseError)) ∧
    (∀ (c : CA) (s : Store) (cn k p g : String), CAStorage s cn = true →
      lookupFile s.files [cn, "ca", "key.pem"] = some (.privKey k) →
      lookupFile s.files [cn, "ca", "key.pub"] = some (.pubKey p) →
      lookupFile s.files [cn, "ca", cn ++ ".csr"] = none →
      lookupFile s.files [cn, "ca", cn ++ ".crt"] = some (.garbage g) →
      loadCA c s cn = (c, some Err.parseError)) ∧
    (∀ (c : CA) (s : Store) (cn k p g : String), CAStorage s cn = true →
      c.CommonName = cn →
      lookupFile s.files [cn, "ca", "key.pem"] = some (.privKey k) →
      lookupFile s.files [cn, "ca", "key.pub"] = some (.pubKey p) →
      lookupFile s.files [cn, "ca", cn ++ ".csr"] = none →
      lookupFile s.files [cn, "ca", cn ++ ".crt"] = none →
      lookupFile s.files [cn, "ca", cn ++ ".crl"] = some (.garbage g) →
      loadCA c s cn = (c, some Err.parseError)) ∧
    (∀ (c : CA) (s : Store) (cn k p : String), CAStorage s cn = true →
      c.CommonName = cn →
      lookupFile s.files [cn, "ca", "key.pem"] = some (.privKey k) →
      lookupFile s.files [cn, "ca", "key.pub"] = some (.pubKey p) →
      lookupFile s.files [cn, "ca", cn ++ ".csr"] = none →
      lookupFile s.files [cn, "ca", cn ++ ".crt"] = none →
      lookupFile s.files [cn, "ca", cn ++ ".crl"] = none →
      loadCA c s cn =
        ({ c with Data :=
            { PrivateKey := pemOf (.privKey k), privateKey := k,
              PublicKey := pemOf (.pubKey p), publicKey := p } }, none)) := by
  refine ⟨?_, ?_, ?_, ?_, ?_, ?_, ?_, ?_, ?_⟩
  · intro c s cn h
    simp [loadCA, h]
  · intro c s cn h hk
    simp [loadCA, LoadFile, h, hk]
  · intro c s cn g h hk
    simp [loadCA, LoadFile, LoadPrivateKey, h, hk]
  · intro c s cn k h hk hp
    simp [loadCA, LoadFile, LoadPrivateKey, h, hk, hp]
  · intro c s cn k g h hk hp
    simp [loadCA, LoadFile, LoadPrivateKey, LoadPublicKey, h, hk, hp]
  · intro c s cn k p g h hk hp hcsr
    simp [loadCA, LoadFile, LoadPrivateKey, LoadPublicKey, LoadCSR, h, hk, hp, hcsr]
  · intro c s cn k p g h hk hp hcsr hcrt
    simp [loadCA, LoadFile, LoadPrivateKey, LoadPublicKey, LoadCSR, LoadCert,
      h, hk, hp, hcsr, hcrt]
  · intro c s cn k p g h hcn hk hp hcsr hcrt hcrl
    subst hcn
    simp [loadCA, LoadFile, LoadPrivateKey, LoadPublicKey, LoadCSR, LoadCert, LoadCRL,
      h, hk, hp, hcsr, hcrt, hcrl]
  · intro c s cn k p h hcn hk hp hcsr hcrt hcrl
    subst hcn
    simp [loadCA, LoadFile, LoadPrivateKey, LoadPublicKey, LoadCSR, LoadCert, LoadCRL,
      h, hk, hp, hcsr, hcrt, hcrl]

/-- Witness for C7: all nine cases at concrete stores for the common name
`x` (absent CA; missing/garbage key; missing/garbage public key; garbage
CSR / certificate / CRL; and a successful tolerant load). -/
theorem loadCA_required_and_optional_artifacts_witness :
    loadCA { CommonName := "x" } {} "x" = ({ CommonName := "x" }, some Err.CALoadNotFound) ∧
    loadCA { CommonName := "x" } { dirs := [["x", "ca"]] } "x"
      = ({ CommonName := "x" }, some (Err.storageNotFound ["x", "ca", "key.pem"])) ∧
    loadCA { CommonName := "x" }
      { files := [(["x", "ca", "key.pem"], .garbage "zz")], dirs := [["x", "ca"]] } "x"
      = ({ CommonName := "x" }, some Err.parseError) ∧
    loadCA { CommonName := "x" }
      { files := [(["x", "ca", "key.pem"], .privKey "k")], dirs := [["x", "ca"]] } "x"
      = ({ CommonName := "x" }, some (Err.storageNotFound ["x", "ca", "key.pub"])) ∧
    loadCA { CommonName := "x" }
      { files := [(["x", "ca", "key.pem"], .privKey "k"),
                  (["x", "ca", "key.pub"], .garbage "zz")], dirs := [["x", "ca"]] } "x"
      = ({ CommonName := "x" }, some Err.parseError) ∧
    loadCA { CommonName := "x" }
      { files := [(["x", "ca", "key.pem"], .privKey "k"),
                  (["x", "ca", "key.pub"], .pubKey "p"),
                  (["x", "ca", "x.csr"], .garbage "zz")], dirs := [["x", "ca"]] } "x"
      = ({ CommonName := "x" }, some Err.parseError) ∧
    loadCA { CommonName := "x" }
      { files := [(["x", "ca", "key.pem"], .privKey "k"),
                  (["x", "ca", "key.pub"], .pubKey "p"),
                  (["x", "ca", "x.crt"], .garbage "zz")], dirs := [["x", "ca"]] } "x"
      = ({ CommonName := "x" }, some Err.parseError) ∧
    loadCA { CommonName := "x" }
      { files := [(["x", "ca", "key.pem"], .privKey "k"),
                  (["x", "ca", "key.pub"], .pubKey "p"),
                  (["x", "ca", "x.crl"], .garbage "zz")], dirs := [["x", "ca"]] } "x"
      = ({ CommonName := "x" }, some Err.parseError) ∧
    loadCA { CommonName := "x" }
      { files := [(["x", "ca", "key.pem"], .privKey "k"),
                  (["x", "ca", "key.pub"], .pubKey "p")], dirs := [["x", "ca"]] } "x"
      = ({ CommonName := "x",
           Data := { PrivateKey := pemOf (.privKey "k"), privateKey := "k",
                     PublicKey := pemOf (.pubKey "p"), publicKey := "p" } }, none) :=
  ⟨loadCA_required_and_optional_artifacts.1 _ _ _ rfl,
   loadCA_required_and_optional_artifacts.2.1 _ _ _ rfl rfl,
   loadCA_required_and_optional_artifacts.2.2.1 _ _ _ "zz" rfl rfl,
   loadCA_required_and_optional_artifacts.2.2.2.1 _ _ _ "k" rfl rfl rfl,
   loadCA_required_and_optional_artifacts.2.2.2.2.1 _ _ _ "k" "zz" rfl rfl rfl,
   loadCA_required_and_optional_artifacts.2.2.2.2.2.1 _ _ _ "k" "p" "zz" rfl rfl rfl rfl,
   loadCA_required_and_optional_artifacts.2.2.2.2.2.2.1 _ _ _ "k" "p" "zz" rfl rfl rfl rfl rfl,
   loadCA_required_and_optional_artifacts.2.2.2.2.2.2.2.1 _ _ _ "k" "p" "zz"
     rfl rfl rfl rfl rfl rfl rfl,
   loadCA_required_and_optional_artifacts.2.2.2.2.2.2.2.2 _ _ _ "k" "p"
     rfl rfl rfl rfl rfl rfl rfl⟩

/-- Claim C10: for a certificate directory that exists under the CA, a
present-but-unparsable private key, public key or CSR file makes
`loadCertificate` dereference the nil pointer returned by the
ignored-error parse call (modelled as the `none` result, a run-time
panic); only a present-but-unparsable certificate file is returned as an
error result.  So the call is not total over malformed key/CSR inputs. -/
theorem loadCertificate_nil_deref_on_malformed :
    (∀ (c : CA) (s : Store) (cn g : String),
      [c.CommonName, "certs", cn] ∈ s.dirs →
      lookupFile s.files [c.CommonName, "certs", cn, "key.pem"] = some (.garbage g) →
      loadCertificate c s cn = none) ∧
    (∀ (c : CA) (s : Store) (cn g : String),
      [c.CommonName, "certs", cn] ∈ s.dirs →
      lookupFile s.files [c.CommonName, "certs", cn, "key.pem"] = none →
      lookupFile s.files [c.CommonName, "certs", cn, "key.pub"] = some (.garbage g) →
      loadCertificate c s cn = none) ∧
    (∀ (c : CA) (s : Store) (cn g : String),
      [c.CommonName, "certs", cn] ∈ s.dirs →
      lookupFile s.files [c.CommonName, "certs", cn, "key.pem"] = none →
      lookupFile s.files [c.CommonName, "certs", cn, "key.pub"] = none →
      lookupFile s.files [c.CommonName, "certs", cn, cn ++ ".csr"] = some (.garbage g) →
      loadCertificate c s cn = none) ∧
    (∀ (c : CA) (s : Store) (cn g : String),
      [c.CommonName, "certs", cn] ∈ s.dirs →
      lookupFile s.files [c.CommonName, "certs", cn, "key.pem"] = none →
      lookupFile s.files [c.CommonName, "certs", cn, "key.pub"] = none →
      lookupFile s.files [c.CommonName, "certs", cn, cn ++ ".csr"] = none →
      lookupFile s.files [c.CommonName, "certs", cn, cn ++ ".crt"] = some (.garbage g) →
      loadCertificate c s cn =
        some ({ CACertificate := c.Data.Certificate,
                caCertificate := c.Data.certificate }, some Err.parseError)) := by
  refine ⟨?_, ?_, ?_, ?_⟩
  · intro c s cn g hdir hk
    simp [loadCertificate, LoadFile, LoadPrivateKey, hdir, hk]
  · intro c s cn g hdir hk hp
    simp [loadCertificate, LoadFile, LoadPrivateKey, LoadPublicKey, hdir, hk, hp]
  · intro c s cn g hdir hk hp hcsr
    simp [loadCertificate, LoadFile, LoadPrivateKey, LoadPublicKey, LoadCSR,
      hdir, hk, hp, hcsr]
  · intro c s cn g hdir hk hp hcsr hcrt
    simp [loadCertificate, LoadFile, LoadPrivateKey, LoadPublicKey, LoadCSR, LoadCert,
      hdir, hk, hp, hcsr, hcrt]

/-- Witness for C10: concrete stores under CA `p`, leaf `leaf`, with a
garbage key / public key / CSR (panic) and a garbage certificate (error). -/
theorem loadCertificate_nil_deref_on_malformed_witness :
    loadCertificate { CommonName := "p" }
      { files := [(["p", "certs", "leaf", "key.pem"], .garbage "zz")],
        dirs := [["p", "certs", "leaf"]] } "leaf" = none ∧
    loadCertificate { CommonName := "p" }
      { files := [(["p", "certs", "leaf", "key.pub"], .garbage "zz")],
        dirs := [["p", "certs", "leaf"]] } "leaf" = none ∧
    loadCertificate { CommonName := "p" }
      { files := [(["p", "certs", "leaf", "leaf.csr"], .garbage "zz")],
        dirs := [["p", "certs", "leaf"]] } "leaf" = none ∧
    loadCertificate { CommonName := "p" }
      { files := [(["p", "certs", "leaf", "leaf.crt"], .garbage "zz")],
        dirs := [["p", "certs", "leaf"]] } "leaf"
      = some ({ CACertificate := "", caCertificate := none }, some Err.parseError) :=
  ⟨loadCertificate_nil_deref_on_malformed.1 _ _ _ "zz" (by decide) rfl,
   loadCertificate_nil_deref_on_malformed.2.1 _ _ _ "zz" (by decide) rfl rfl,
   loadCertificate_nil_deref_on_malformed.2.2.1 _ _ _ "zz" (by decide) rfl rfl rfl,
   loadCertificate_nil_deref_on_malformed.2.2.2 _ _ _ "zz" (by decide) rfl rfl rfl rfl⟩

/-- Claim C8: when the CSR's subject common name matches a CA known to the
store, a successful `signCSR` additionally copies the newly produced
certificate bytes into that CA's own `ca`-directory certificate slot; and
when that copy step fails, `signCSR` returns the copy error even though
the signing itself already succeeded and is not rolled back — the
returned `Certificate` still carries the signed certificate (both the
parsed certificate and its PEM string). -/
theorem signCSR_chain_propagation (c : CA) (s : Store) (csr : CSRData)
    (valid : Nat)
    (hpre : lookupFile s.files [c.CommonName, "cert", csr.subjectCN ++ ".csr"] = none)
    (hknown : csr.subjectCN ∈ ListCAs s) :
    ([csr.subjectCN, "ca", csr.subjectCN ++ ".crt"] ∉ s.badPaths →
      (signCSR c s csr valid).2.2 = none ∧
      lookupFile (signCSR c s csr valid).1.files
          [csr.subjectCN, "ca", csr.subjectCN ++ ".crt"]
        = some (.certData (mkSignedCert c.CommonName csr c.Data.privateKey valid))) ∧
    ([csr.subjectCN, "ca", csr.subjectCN ++ ".crt"] ∈ s.badPaths →
      (signCSR c s csr valid).2.2 = some Err.copyError ∧
      (signCSR c s csr valid).2.1.certificate
        = some (mkSignedCert c.CommonName csr c.Data.privateKey valid) ∧
      (signCSR c s csr valid).2.1.Certificate
        = pemOf (.certData (mkSignedCert c.CommonName csr c.Data.privateKey valid))) := by
  have hex : ∃ a ∈ s.dirs, a.head? = some csr.subjectCN := by
    simpa [ListCAs, List.mem_dedup, List.mem_filterMap] using hknown
  constructor
  · intro hgood
    simp [signCSR, LoadFile, hpre, CASignCSR, CopyFile, writeFile, ListCAs,
      lookupFile, hex, hgood]
  · intro hbad
    simp [signCSR, LoadFile, hpre, CASignCSR, CopyFile, writeFile, ListCAs,
      lookupFile, hex, hbad]

/-- Witness for C8: CA `parent` signs a CSR for `child`, a CA known to the
store; with no fault the copy lands in `child`'s ca directory, and with a
fault injected on the destination the call errors while still returning
the signed certificate. -/
theorem signCSR_chain_propagation_witness :
    ((signCSR { CommonName := "parent" } { dirs := [["child", "ca"]] }
        { subjectCN := "child", publicKey := "pk" } 50).2.2 = none ∧
      lookupFile (signCSR { CommonName := "parent" } { dirs := [["child", "ca"]] }
          { subjectCN := "child", publicKey := "pk" } 50).1.files
          ["child", "ca", "child.crt"]
        = some (.certData (mkSignedCert "parent"
            { subjectCN := "child", publicKey := "pk" } "" 50))) ∧
    ((signCSR { CommonName := "parent" }
        { dirs := [["child", "ca"]], badPaths := [["child", "ca", "child.crt"]] }
        { subjectCN := "child", publicKey := "pk" } 50).2.2 = some Err.copyError ∧
      (signCSR { CommonName := "parent" }
          { dirs := [["child", "ca"]], badPaths := [["child", "ca", "child.crt"]] }
          { subjectCN := "child", publicKey := "pk" } 50).2.1.certificate
        = some (mkSignedCert "parent" { subjectCN := "child", publicKey := "pk" } "" 50) ∧
      (signCSR { CommonName := "parent" }
          { dirs := [["child", "ca"]], badPaths := [["child", "ca", "child.crt"]] }
          { subjectCN := "child", publicKey := "pk" } 50).2.1.Certificate
        = pemOf (.certData (mkSignedCert "parent"
            { subjectCN := "child", publicKey := "pk" } "" 50))) :=
  ⟨(signCSR_chain_propagation { CommonName := "parent" } { dirs := [["child", "ca"]] }
      { subjectCN := "child", publicKey := "pk" } 50 rfl (by decide)).1 (by decide),
   (signCSR_chain_propagation { CommonName := "parent" }
      { dirs := [["child", "ca"]], badPaths := [["child", "ca", "child.crt"]] }
      { subjectCN := "child", publicKey := "pk" } 50 rfl (by decide)).2 (by decide)⟩
